import Mathlib

/-!
# Verification of web3-proxy request handling and frontend rate limiting

Shallow embedding of the parts of the `web3-proxy` repository that the
checked claims are about:

* `web3_proxy/src/rpcs/request.rs` — `OpenRequestHandle::request`
  (revert sampling, failure classification, cooldown update) and
  `Authorization::save_revert`;
* `web3_proxy/src/frontend/mod.rs` — `rate_limit_by_ip` and
  `rate_limit_by_key`;
* `web3_proxy/src/user_queries.rs` — `get_rpc_key_id_from_params`.

Machine strings are modelled as Lean `String` / `List Char`; Rust
`str::contains` and `str::starts_with` are embedded as substring /
prefix tests on the character lists.  `Instant` is modelled as a `Nat`
count of seconds (the only duration the embedded code ever adds is
`Duration::from_secs(1)`).  The `f64` field `log_revert_chance` and the
per-call uniform draw are modelled as rationals: the code performs no
floating-point arithmetic on them, only the comparisons `== 0.0`,
`== 1.0` and `<`, which are order-faithful under this embedding.
-/

namespace Web3Proxy

/-- Embedding of Rust `str::contains` on the pattern/haystack character
lists: `listContainsSub pat s` is true iff `pat` occurs as a contiguous
substring of `s`. -/
def listContainsSub (pat : List Char) : List Char → Bool
  | [] => pat.isEmpty
  | c :: rest => pat.isPrefixOf (c :: rest) || listContainsSub pat rest

/-- Rust `s.contains(pat)`. -/
def containsSub (s pat : String) : Bool :=
  listContainsSub pat.data s.data

/-- Rust `s.starts_with(pat)`. -/
def startsWithStr (s pat : String) : Bool :=
  pat.data.isPrefixOf s.data

/-! ## `rpcs/request.rs`: data model -/

/-- `AuthorizationChecks` (only the fields read by the embedded code):
`rpc_secret_key_id: Option<NonZeroU64>` and `log_revert_chance: f64`. -/
structure AuthorizationChecks where
  rpc_secret_key_id : Option Nat
  log_revert_chance : ℚ

/-- `frontend::authorization::Authorization`, restricted to the fields
read in `rpcs/request.rs`: the checks and whether `db_conn` is `Some`. -/
structure Authorization where
  checks : AuthorizationChecks
  db_conn : Bool

/-- `RequestRevertHandler` from `rpcs/request.rs`. -/
inductive RequestRevertHandler where
  | TraceLevel
  | DebugLevel
  | ErrorLevel
  | WarnLevel
  | Save
deriving DecidableEq, Repr

/-- `EthCallFirstParams`: `to: Address`, `data: Option<Bytes>`.  The
address (source field `to`, a Lean keyword) is its 20-byte
representation; the call data its formatted string. -/
structure EthCallFirstParams where
  to_addr : List Nat
  data : Option String

/-- One row of the `revert_log` table, as built by `save_revert`
(source column `to` is rendered `to_addr`). -/
structure RevertLogRow where
  rpc_key_id : Nat
  method : String
  to_addr : List Nat
  call_data : Option String
  timestamp : Nat
deriving DecidableEq, Repr

/-- `Authorization::save_revert` (request.rs lines 74–120).  The
database is modelled as the list of `revert_log` rows; a successful
save appends one row.  Mirrors the source: a missing
`rpc_secret_key_id` returns `Ok(())` at once without touching the
database; a missing database connection is the error
`"no database connection"`; otherwise a row
`{rpc_key_id, method, to, call_data, timestamp}` is inserted. -/
def save_revert (auth : Authorization) (method : String)
    (params : EthCallFirstParams) (now : Nat) (db : List RevertLogRow) :
    Except String (List RevertLogRow) :=
  match auth.checks.rpc_secret_key_id with
  | none => .ok db
  | some rpc_key_id =>
    if auth.db_conn then
      .ok (db ++ [⟨rpc_key_id, method, params.to_addr, params.data, now⟩])
    else
      .error "no database connection"

/-- Resolution of the revert handler in `OpenRequestHandle::request`
(request.rs lines 210–240).  `r` is the value drawn by
`thread_fast_rng().gen_range(0.0f64..=1.0)` for this call; the branch
structure is copied from the source, including the direction of the
comparison `r < log_revert_chance`. -/
def resolveRevertHandler (handler : RequestRevertHandler) (method : String)
    (auth : Authorization) (r : ℚ) : RequestRevertHandler :=
  match handler with
  | .Save =>
    if !(["eth_call", "eth_estimateGas"].contains method) then
      .TraceLevel
    else if auth.db_conn then
      if auth.checks.log_revert_chance = 0 then
        .TraceLevel
      else if auth.checks.log_revert_chance = 1 then
        .Save
      else if r < auth.checks.log_revert_chance then
        .TraceLevel
      else
        .Save
    else
      .TraceLevel
  | h => h

/-- A failed dispatch emits a revert record (spawns `save_revert`,
request.rs lines 348–369) exactly when the resolved handler is
`Save`. -/
def emitsRevertRecord (handler : RequestRevertHandler) (method : String)
    (auth : Authorization) (r : ℚ) : Bool :=
  match resolveRevertHandler handler method auth r with
  | .Save => true
  | _ => false

/-- `ResponseTypes` from `OpenRequestHandle::request`. -/
inductive ResponseTypes where
  | Revert
  | RateLimit
  | Ok
deriving DecidableEq, Repr

/-- The error of a failed dispatch: a JSON-RPC client error whose
message could (or could not) be extracted by the provider-specific
downcasts of request.rs lines 251–285, or any other `ProviderError`. -/
inductive ProviderErr where
  | jsonRpc (msg : Option String)
  | otherErr
deriving DecidableEq

/-- Failure classification (request.rs lines 249–302): a message
starting with `"execution reverted"` is a revert; otherwise a message
containing `"limit"` or `"request"` is a rate limit; everything else is
`Ok`. -/
def responseTypeOf : ProviderErr → ResponseTypes
  | .jsonRpc (some m) =>
    if startsWithStr m "execution reverted" then .Revert
    else if containsSub m "limit" || containsSub m "request" then .RateLimit
    else .Ok
  | .jsonRpc none => .Ok
  | .otherErr => .Ok

/-- Cooldown update (request.rs lines 304–312): on a rate-limited
response, and only if the connection carries a `hard_limit_until` watch
channel, the stored instant is replaced by `Instant::now() + 1 s`. -/
def applyErrorCooldown (rt : ResponseTypes) (hard_limit_until : Option Nat)
    (now : Nat) : Option Nat :=
  match rt with
  | .RateLimit =>
    match hard_limit_until with
    | some _ => some (now + 1)
    | none => none
  | _ => hard_limit_until

/-- The successive values stored in the `hard_limit_until` watch
channel: its initial value, then `t + 1` for each rate-limited response
observed at instant `t` (each `send_replace` at request.rs line 310
stores `Instant::now() + 1 s` unconditionally). -/
def hardLimitStates (init : Nat) (times : List Nat) : List Nat :=
  init :: times.map (fun t => t + 1)

/-- Modelled from the spec: upstream selection lives outside `src/`
(`rpcs/one.rs` / the pool), so skipping is taken from the spec's words
"Cooldown — an instant until which an upstream is not considered for
selection" / "next call within that second skips A entirely": an
upstream with cooldown instant `cooldown` is skipped at time `now` iff
`now < cooldown`. -/
def skippedAt (cooldown now : Nat) : Bool :=
  decide (now < cooldown)

/-! ## `frontend/mod.rs`: data model -/

/-- One invocation of `rate_limiter.throttle_key(key, max_burst,
count_per_period, period)` as made by the frontend entry points. -/
structure ThrottleCall where
  key : String
  max_burst : Option Nat
  count_per_period : Option Nat
  period : Option Nat
deriving DecidableEq, Repr

/-- Outcome of a frontend rate-limit entry point: `Ok(())`, or the
error response built by `handle_anyhow_error(Some(status), None, msg)`. -/
inductive RateLimitResult where
  | ok
  | err (status : Nat) (msg : String)
deriving DecidableEq, Repr

/-- One row of the `user_keys` table, restricted to the columns the
frontend query touches: `api_key`, `active`, `user_id`. -/
structure UserKeyRow where
  api_key : String
  active : Bool
  user_id : Int
deriving DecidableEq, Repr

/-- The database query of `rate_limit_by_key` (frontend/mod.rs lines
71–79): select `user_id` from `user_keys` where `api_key = key` and
`active = true`, taking one row. -/
def findActiveUserId (rows : List UserKeyRow) (key : String) : Option Int :=
  ((rows.filter fun row => row.api_key == key && row.active).head?).map
    fun row => row.user_id

/-- `rate_limit_by_ip` (frontend/mod.rs lines 28–54).  `rate_limiter`
is `app.rate_limiter()`: when present, it decides whether the throttle
call succeeds.  Returns the handler result together with the throttle
call that was issued, if any. -/
def rate_limit_by_ip (rate_limiter : Option (ThrottleCall → Bool))
    (ip : String) : RateLimitResult × Option ThrottleCall :=
  let call : ThrottleCall := ⟨"ip:" ++ ip, none, none, none⟩
  match rate_limiter with
  | some throttle_ok =>
    if throttle_ok call then (.ok, some call)
    else (.err 429 ("too many requests from this ip: " ++ ip), some call)
  | none => (.ok, none)

/-- `rate_limit_by_key` (frontend/mod.rs lines 58–140).  `db` is the
database: either its `user_keys` rows, or a query error.  `user_key` is
`user_key.to_string()`, the textual UUID.  The budget passed to
`throttle_key` is the hard-coded
`(max_burst, count_per_period, period) = (100000, 100000, 1)` of lines
84–94.  Returns the handler result together with the throttle call
issued, if any. -/
def rate_limit_by_key (db : Except String (List UserKeyRow))
    (rate_limiter : Option (ThrottleCall → Bool)) (user_key : String) :
    RateLimitResult × Option ThrottleCall :=
  match db.map fun rows => findActiveUserId rows user_key with
  | .ok (some _) =>
    let call : ThrottleCall := ⟨user_key, some 100000, some 100000, some 1⟩
    match rate_limiter with
    | some throttle_ok =>
      if throttle_ok call then (.ok, some call)
      else (.err 429 "too many requests from this key", some call)
    | none => (.ok, none)
  | .ok none => (.err 403 "unknown api key", none)
  | .error _ => (.err 500 "failed checking database for user key", none)

/-! ## `user_queries.rs`: parameter handling -/

/-- `get_rpc_key_id_from_params` (user_queries.rs lines 73–89): a
positive `user_id` reads and parses the `rpc_key_id` query parameter
(default `0`); `user_id = 0` returns `0` without looking at the
parameters.  The query parameters are an association list; Rust
`u64::parse` is embedded as `String.toNat?` (decimal digits or
failure). -/
def get_rpc_key_id_from_params (user_id : Nat)
    (params : List (String × String)) : Except String Nat :=
  if user_id > 0 then
    match (params.lookup "rpc_key_id") with
    | none => .ok 0
    | some c =>
      match c.toNat? with
      | some n => .ok n
      | none => .error "invalid digit found in string"
  else
    .ok 0

/-! ## Helper lemmas -/

/-- Helper for the unknown-key analysis: if every row carrying the
requested api key is inactive then the active-key query finds
nothing. -/
lemma findActiveUserId_eq_none (rows : List UserKeyRow) (key : String)
    (h : ∀ row ∈ rows, row.api_key = key → row.active = false) :
    findActiveUserId rows key = none := by
  unfold findActiveUserId
  have hfil : rows.filter (fun row => row.api_key == key && row.active) = [] := by
    induction rows with
    | nil => rfl
    | cons r rs ih =>
      have hr := h r (List.mem_cons_self r rs)
      have hrest : ∀ row ∈ rs, row.api_key = key → row.active = false :=
        fun row hrow => h row (List.mem_cons_of_mem _ hrow)
      by_cases hak : r.api_key = key
      · have hact : r.active = false := hr hak
        simp [List.filter_cons, hak, hact, ih hrest]
      · simp [List.filter_cons, hak, ih hrest]
  rw [hfil]
  rfl

/-! ## Theorems for the claims -/

/-- Claim C1 (code bug): the spec says a revert record is emitted, for
`eth_call`/`eth_estimateGas` with a database present and
`0 < log_revert_chance < 1`, exactly when the per-call draw `r`
satisfies `r < log_revert_chance`.  The code does the opposite: with
`log_revert_chance = 3/4`, the draw `r = 1/2 < 3/4` resolves the
handler away from `Save` (no record), while `r = 7/8 ≥ 3/4` resolves it
to `Save` (record emitted).  The comparison at request.rs line 224 is
inverted relative to the boundary cases (`0` → never, `1` → always) and
to the field's meaning. -/
theorem revert_sampling_is_inverted :
    ((1 : ℚ)/2 < 3/4) ∧
    emitsRevertRecord .Save "eth_call" ⟨⟨some 5, 3/4⟩, true⟩ (1/2) = false ∧
    ¬((7 : ℚ)/8 < 3/4) ∧
    emitsRevertRecord .Save "eth_call" ⟨⟨some 5, 3/4⟩, true⟩ (7/8) = true := by
  refine ⟨by norm_num, ?_, by norm_num, ?_⟩
  · have h : resolveRevertHandler .Save "eth_call" ⟨⟨some 5, 3/4⟩, true⟩ (1/2)
        = .TraceLevel := by
      unfold resolveRevertHandler
      norm_num
    simp only [emitsRevertRecord]
    rw [h]
  · have h : resolveRevertHandler .Save "eth_call" ⟨⟨some 5, 3/4⟩, true⟩ (7/8)
        = .Save := by
      unfold resolveRevertHandler
      norm_num
    simp only [emitsRevertRecord]
    rw [h]

/-- Claim C2: a dispatched call failing with a JSON-RPC error whose
message contains `"limit"` or `"request"` and does not start with
`"execution reverted"` is classified rate-limited; the upstream's
`hard_limit_until` (when the watch channel is present) is replaced by
`now + 1`, and a call at any time `t` within that second finds the
upstream skipped. -/
theorem rate_limited_sets_cooldown (m : String) (hl now t : Nat)
    (h1 : containsSub m "limit" = true ∨ containsSub m "request" = true)
    (h2 : startsWithStr m "execution reverted" = false)
    (ht1 : now ≤ t) (ht2 : t < now + 1) :
    responseTypeOf (.jsonRpc (some m)) = .RateLimit ∧
    applyErrorCooldown (responseTypeOf (.jsonRpc (some m))) (some hl) now
      = some (now + 1) ∧
    skippedAt (now + 1) t = true := by
  have hor : (containsSub m "limit" || containsSub m "request") = true := by
    rcases h1 with h | h <;> simp [h]
  have hrt : responseTypeOf (.jsonRpc (some m)) = .RateLimit := by
    simp [responseTypeOf, h2, hor]
  refine ⟨hrt, ?_, ?_⟩
  · rw [hrt]
    rfl
  · simp [skippedAt, ht2]

/-- Witness for C2 at a concrete input: the message
`"rate limit exceeded"` from an upstream whose channel held `3`, at
`now = 10`, observed by a call at `t = 10`. -/
theorem rate_limited_sets_cooldown_witness :
    responseTypeOf (.jsonRpc (some "rate limit exceeded")) = .RateLimit ∧
    applyErrorCooldown (responseTypeOf (.jsonRpc (some "rate limit exceeded")))
      (some 3) 10 = some 11 ∧
    skippedAt 11 10 = true :=
  rate_limited_sets_cooldown "rate limit exceeded" 3 10 10
    (Or.inl (by decide)) (by decide) (by decide) (by decide)

/-- Counterexample to claim C3 as stated: the message
`"over limit: execution reverted"` contains `"execution reverted"`
(though not at the start), yet the code classifies it as rate-limited,
not as a revert. -/
theorem revert_containment_not_classified :
    containsSub "over limit: execution reverted" "execution reverted" = true ∧
    responseTypeOf (.jsonRpc (some "over limit: execution reverted")) ≠ .Revert ∧
    responseTypeOf (.jsonRpc (some "over limit: execution reverted"))
      = .RateLimit := by
  refine ⟨by decide, by decide, by decide⟩

/-- Claim C3 (amended): a JSON-RPC error message that *starts with*
`"execution reverted"` is classified as a revert, taking precedence
over the `"limit"`/`"request"` rate-limit test. -/
theorem revert_classified_by_leading_marker (m : String)
    (h : startsWithStr m "execution reverted" = true) :
    responseTypeOf (.jsonRpc (some m)) = .Revert := by
  simp [responseTypeOf, h]

/-- Witness for the amended C3: a message that starts with
`"execution reverted"` and also contains `"limit"` is still a
revert. -/
theorem revert_classified_by_leading_marker_witness :
    responseTypeOf (.jsonRpc (some "execution reverted: limit reached"))
      = .Revert :=
  revert_classified_by_leading_marker "execution reverted: limit reached"
    (by decide)

/-- Claim C4: the `hard_limit_until` instant is monotonically advanced,
never rewound.  Each rate-limited response at instant `t` stores
`t + 1`; given that the response instants are chronological
(`Instant::now()` is monotone) and no earlier than one second before
the initial value, the successive stored values are nondecreasing. -/
theorem hard_limit_until_monotone (init : Nat) (times : List Nat)
    (hsort : times.Sorted (· ≤ ·)) (hinit : ∀ t ∈ times, init ≤ t + 1) :
    (hardLimitStates init times).Sorted (· ≤ ·) := by
  unfold hardLimitStates
  refine List.sorted_cons.mpr ⟨?_, ?_⟩
  · intro b hb
    obtain ⟨t, ht, rfl⟩ := List.mem_map.mp hb
    exact hinit t ht
  · exact List.Pairwise.map (fun t => t + 1)
      (fun a b hab => Nat.succ_le_succ hab) hsort

/-- Witness for C4: starting value `5`, rate-limited responses at
instants `10` and `11`; the stored sequence `[5, 11, 12]` is
nondecreasing. -/
theorem hard_limit_until_monotone_witness :
    (hardLimitStates 5 [10, 11]).Sorted (· ≤ ·) :=
  hard_limit_until_monotone 5 [10, 11] (by decide) (by decide)

/-- Counterexample to claim C5 as stated: with no rate limiter
configured, neither entry point enforces any rate limit — both admit
the request and never consult any token bucket (no throttle call is
made at all, so there is no process-local bucket either). -/
theorem no_store_no_local_bucket :
    rate_limit_by_ip none "203.0.113.7" = (.ok, none) ∧
    rate_limit_by_key (.ok [⟨"key-a", true, 7⟩]) none "key-a"
      = (.ok, none) :=
  ⟨rfl, rfl⟩

/-- Claim C5 (amended): when `app.rate_limiter()` is `None`, the
frontend performs no rate limiting: every anonymous-IP request and
every request with a valid key is admitted, and no bucket of any kind
is consulted. -/
theorem no_store_admits_all (ip user_key : String) (rows : List UserKeyRow)
    (uid : Int) (h : findActiveUserId rows user_key = some uid) :
    rate_limit_by_ip none ip = (.ok, none) ∧
    rate_limit_by_key (.ok rows) none user_key = (.ok, none) := by
  constructor
  · rfl
  · unfold rate_limit_by_key
    simp [Except.map, h]

/-- Witness for the amended C5 at a concrete IP and key. -/
theorem no_store_admits_all_witness :
    rate_limit_by_ip none "203.0.113.99" = (.ok, none) ∧
    rate_limit_by_key (.ok [⟨"key-w", true, 3⟩]) none "key-w"
      = (.ok, none) :=
  no_store_admits_all "203.0.113.99" "key-w" [⟨"key-w", true, 3⟩] 3 (by decide)

/-- Counterexample to claim C6 as stated: two distinct keys are
throttled with the identical hard-coded budget
`(max_burst, count_per_period, period) = (100000, 100000, 1)`; no
per-key value from any auth resolver is consulted, so differently
configured keys cannot be throttled differently. -/
theorem key_budget_not_per_key :
    (rate_limit_by_key (.ok [⟨"key-a", true, 1⟩, ⟨"key-b", true, 2⟩])
        (some fun _ => true) "key-a").2
      = some ⟨"key-a", some 100000, some 100000, some 1⟩ ∧
    (rate_limit_by_key (.ok [⟨"key-a", true, 1⟩, ⟨"key-b", true, 2⟩])
        (some fun _ => true) "key-b").2
      = some ⟨"key-b", some 100000, some 100000, some 1⟩ ∧
    "key-a" ≠ "key-b" :=
  ⟨rfl, rfl, by decide⟩

/-- Claim C6 (amended): every key that passes the active-key check is
throttled with the same hard-coded budget — burst `100000`, `100000`
requests per `1`-second period — regardless of the key; no per-key
budget and no `max_concurrent` are looked up. -/
theorem key_budget_uniform (rows : List UserKeyRow) (key : String)
    (uid : Int) (f : ThrottleCall → Bool)
    (h : findActiveUserId rows key = some uid) :
    (rate_limit_by_key (.ok rows) (some f) key).2
      = some ⟨key, some 100000, some 100000, some 1⟩ := by
  unfold rate_limit_by_key
  simp only [Except.map, h]
  by_cases hf : f ⟨key, some 100000, some 100000, some 1⟩ <;> simp [hf]

/-- Witness for the amended C6 at a concrete key and a deny-all
limiter. -/
theorem key_budget_uniform_witness :
    (rate_limit_by_key (.ok [⟨"key-c", true, 9⟩]) (some fun _ => false)
        "key-c").2
      = some ⟨"key-c", some 100000, some 100000, some 1⟩ :=
  key_budget_uniform [⟨"key-c", true, 9⟩] "key-c" 9 (fun _ => false)
    (by decide)

/-- Counterexample to claim C7 as stated: for the authenticated key
`de305d54-75b4-431b-adb2-eb6b9e546014` the rate-limiter key checked is
the bare UUID string, not `"user:<uuid>"`. -/
theorem user_bucket_key_not_namespaced :
    (rate_limit_by_key
        (.ok [⟨"de305d54-75b4-431b-adb2-eb6b9e546014", true, 1⟩])
        (some fun _ => true) "de305d54-75b4-431b-adb2-eb6b9e546014").2
      = some ⟨"de305d54-75b4-431b-adb2-eb6b9e546014",
          some 100000, some 100000, some 1⟩ ∧
    "de305d54-75b4-431b-adb2-eb6b9e546014"
      ≠ "user:de305d54-75b4-431b-adb2-eb6b9e546014" :=
  ⟨rfl, by decide⟩

/-- Claim C7 (amended): IP buckets use keys `"ip:<addr>"`; key buckets
use the bare UUID string.  They still never collide: a textual UUID
contains no `':'` character, while every IP bucket key does. -/
theorem bucket_keys_disjoint (f : ThrottleCall → Bool) (ip uuid : String)
    (rows : List UserKeyRow) (uid : Int)
    (h1 : findActiveUserId rows uuid = some uid)
    (h2 : ':' ∉ uuid.data) :
    (rate_limit_by_ip (some f) ip).2
      = some ⟨"ip:" ++ ip, none, none, none⟩ ∧
    (rate_limit_by_key (.ok rows) (some f) uuid).2
      = some ⟨uuid, some 100000, some 100000, some 1⟩ ∧
    "ip:" ++ ip ≠ uuid := by
  refine ⟨?_, ?_, ?_⟩
  · unfold rate_limit_by_ip
    by_cases hf : f ⟨"ip:" ++ ip, none, none, none⟩ <;> simp [hf]
  · unfold rate_limit_by_key
    simp only [Except.map, h1]
    by_cases hf : f ⟨uuid, some 100000, some 100000, some 1⟩ <;> simp [hf]
  · intro he
    apply h2
    rw [← he, String.data_append]
    exact List.mem_append_left _ (by decide)

/-- Witness for the amended C7 at a concrete IP and UUID. -/
theorem bucket_keys_disjoint_witness :
    (rate_limit_by_ip (some fun _ => true) "10.0.0.1").2
      = some ⟨"ip:" ++ "10.0.0.1", none, none, none⟩ ∧
    (rate_limit_by_key
        (.ok [⟨"b5f7cbfe-0000-4000-8000-000000000001", true, 4⟩])
        (some fun _ => true) "b5f7cbfe-0000-4000-8000-000000000001").2
      = some ⟨"b5f7cbfe-0000-4000-8000-000000000001",
          some 100000, some 100000, some 1⟩ ∧
    "ip:" ++ "10.0.0.1" ≠ "b5f7cbfe-0000-4000-8000-000000000001" :=
  bucket_keys_disjoint (fun _ => true) "10.0.0.1"
    "b5f7cbfe-0000-4000-8000-000000000001"
    [⟨"b5f7cbfe-0000-4000-8000-000000000001", true, 4⟩] 4
    (by decide) (by decide)

/-- Claim C8: a key that is unknown, or whose rows are all inactive, is
rejected with HTTP 403 `"unknown api key"`, and no rate-limiter check
is made for it (no throttle call is issued). -/
theorem unknown_key_forbidden (rows : List UserKeyRow) (key : String)
    (rl : Option (ThrottleCall → Bool))
    (h : ∀ row ∈ rows, row.api_key = key → row.active = false) :
    rate_limit_by_key (.ok rows) rl key
      = (.err 403 "unknown api key", none) := by
  have hn := findActiveUserId_eq_none rows key h
  unfold rate_limit_by_key
  simp [Except.map, hn]

/-- Witness for C8: a key present in the table but inactive. -/
theorem unknown_key_forbidden_witness :
    rate_limit_by_key (.ok [⟨"k1", false, 7⟩]) none "k1"
      = (.err 403 "unknown api key", none) :=
  unknown_key_forbidden [⟨"k1", false, 7⟩] "k1" none (by decide)

/-- Claim C9: an authorization whose checks carry no
`rpc_secret_key_id` makes `save_revert` return `Ok(())` at once and
leaves the revert-log database unchanged. -/
theorem save_revert_needs_secret_key (auth : Authorization)
    (method : String) (params : EthCallFirstParams) (now : Nat)
    (db : List RevertLogRow)
    (h : auth.checks.rpc_secret_key_id = none) :
    save_revert auth method params now db = .ok db := by
  unfold save_revert
  rw [h]

/-- Witness for C9: an anonymous authorization (no secret key id) with
a database connection present writes nothing. -/
theorem save_revert_needs_secret_key_witness :
    save_revert ⟨⟨none, (1 : ℚ)/2⟩, true⟩ "eth_call" ⟨[], none⟩ 0 []
      = .ok [] :=
  save_revert_needs_secret_key ⟨⟨none, (1 : ℚ)/2⟩, true⟩ "eth_call"
    ⟨[], none⟩ 0 [] rfl

/-- Claim C10: with `user_id = 0`, `get_rpc_key_id_from_params` returns
`Ok 0` for every params map, so two calls differing only in the
`rpc_key_id` parameter agree and no rpc key id is ever selected without
a user id. -/
theorem rpc_key_id_needs_user_id (p1 p2 : List (String × String)) :
    get_rpc_key_id_from_params 0 p1 = .ok 0 ∧
    get_rpc_key_id_from_params 0 p1 = get_rpc_key_id_from_params 0 p2 := by
  unfold get_rpc_key_id_from_params
  simp

end Web3Proxy
